import Mathlib

set_option maxRecDepth 4000

namespace BgRemover

/-! Shallow embedding of the bg-remover-api service: four near-duplicate single-file
Express variants (src/server.js and src/unnamed/part_000, part_001, part_002).
Third-party libraries (sharp, @imgly/background-removal-node) are modelled as
oracle function parameters; everything else follows the source line by line. -/

/-- Character class removed by JS `String.prototype.trim`: the ECMAScript
WhiteSpace and LineTerminator productions — tab, line feed, vertical tab, form
feed, carriage return, space, no-break space, the Unicode Zs space separators
(U+1680, U+2000..U+200A, U+202F, U+205F, U+3000), the line and paragraph
separators (U+2028, U+2029), and the zero-width no-break space (U+FEFF). -/
def isTrimmedWS (c : Char) : Bool :=
  c == ' ' || c == '\t' || c == '\n' || c == '\r' || c == '\x0B' || c == '\x0C'
    || c == '\u00A0' || c == '\u1680' || c == '\u2000' || c == '\u2001'
    || c == '\u2002' || c == '\u2003' || c == '\u2004' || c == '\u2005'
    || c == '\u2006' || c == '\u2007' || c == '\u2008' || c == '\u2009'
    || c == '\u200A' || c == '\u2028' || c == '\u2029' || c == '\u202F'
    || c == '\u205F' || c == '\u3000' || c == '\uFEFF'

/-- JS `s.trim()`: drop whitespace characters from both ends of the string. -/
def strTrim (s : String) : String :=
  ⟨((s.data.dropWhile isTrimmedWS).reverse.dropWhile isTrimmedWS).reverse⟩

/-- Scan for the first occurrence of `pat` in a character list; on a hit, return the
list with that one occurrence removed, otherwise `none`. -/
def removeFirstAux (pat : List Char) : List Char → Option (List Char)
  | [] => none
  | c :: cs =>
    if pat.isPrefixOf (c :: cs) then some ((c :: cs).drop pat.length)
    else
      match removeFirstAux pat cs with
      | some r => some (c :: r)
      | none => none

/-- JS `s.replace(pat, '')` with a string (non-regex) pattern: only the first
occurrence of `pat`, anywhere in `s`, is removed; `s` is unchanged when `pat`
does not occur. -/
def removeFirst (s pat : String) : String :=
  match removeFirstAux pat.data s.data with
  | some r => ⟨r⟩
  | none => s

/-- Whether `pat` occurs as a contiguous substring of `s`. -/
def containsSub (s pat : String) : Bool :=
  (removeFirstAux pat.data s.data).isSome

/-- Token extraction shared by all variants:
`(req.headers.authorization || '').replace('Bearer ', '').trim()`. -/
def extractToken (authorization : Option String) : String :=
  strTrim (removeFirst (authorization.getD "") "Bearer ")

/-- JS `v || d` for a possibly-undefined string environment variable: `undefined`
and the empty string are both falsy, so they fall back to the default. -/
def jsOr (v : Option String) (d : String) : String :=
  match v with
  | none => d
  | some s => if s == "" then d else s

/-- JS strict inequality `token !== API_KEY` where `API_KEY : string | undefined`:
a string value is never strictly equal to `undefined`. -/
def jsNeqOptStr (token : String) (apiKey : Option String) : Bool :=
  match apiKey with
  | none => true
  | some k => token != k

/-- JS falsiness of a possibly-undefined string value: `!v` is true when `v` is
`undefined` or the empty string. -/
def jsFalsy (v : Option String) : Bool :=
  match v with
  | none => true
  | some s => s == ""

/-- server.js auth guard `!API_KEY || token !== API_KEY`: the `!API_KEY` clause
is true when the key is undefined or the empty string (both falsy in JS). -/
def serverUnauthorized (apiKey : Option String) (token : String) : Bool :=
  jsFalsy apiKey || jsNeqOptStr token apiKey

/-- Per-request upload record held in memory by multer's memoryStorage. -/
structure UploadedFile where
  originalname : String
  mimetype : String
  size : Nat
  buffer : List Nat
deriving DecidableEq, Repr

/-- The parts of an incoming POST /remove-bg request the service inspects. -/
structure Request where
  authorization : Option String
  file : Option UploadedFile
deriving DecidableEq, Repr

/-- Response bodies produced by the service: the JSON error documents (error,
details, message fields), a binary image body, or the HTML page produced by
Express's default error handler for an error thrown in middleware. -/
inductive Body where
  | json : String → Option String → Option String → Body
  | binary : List Nat → Body
  | errorHtml : String → Body
deriving DecidableEq, Repr

structure Response where
  status : Nat
  contentType : Option String := none
  contentDisposition : Option String := none
  body : Body
deriving DecidableEq, Repr

/-- Observable side effects of one request, in order of occurrence: the multer
fileFilter callback running, control entering the route handler, the
`console.log('Processing ...')` line, the sharp normalization call, and the
`removeBackground` invocation. -/
inductive Step where
  | fileFilterRan : Step
  | handlerEntered : Step
  | logProcessing : String → Step
  | normalizeInvoked : Step
  | removalInvoked : Step
deriving DecidableEq, Repr

/-- The MIME allow-list `['image/png', 'image/jpeg', 'image/jpg', 'image/webp']`
shared by the fileFilter of server.js, part_000 and part_002. -/
def allowed : List String := ["image/png", "image/jpeg", "image/jpg", "image/webp"]

/-- The multer middleware of server.js / part_000 / part_002: memory storage,
15 MB fileSize limit, and a fileFilter admitting only the allow-listed MIME
types (the rejection message `errMsg` differs between variants). A middleware
error carries no HTTP status, so Express's default error handler answers 500;
the fileFilter runs (and is traced) whenever a file is present, before the
route handler and before any authentication. -/
def multerFiltered (errMsg : String) (req : Request) : Option String × List Step :=
  match req.file with
  | none => (none, [])
  | some f =>
    ((if allowed.contains f.mimetype then
        if f.size ≤ 15 * 1024 * 1024 then none else some "File too large"
      else some errMsg),
     [Step.fileFilterRan])

/-- The multer middleware of part_001: memory storage and a 10 MB fileSize limit
only — no fileFilter, so no MIME check runs. -/
def multerPart001 (req : Request) : Option String × List Step :=
  ((match req.file with
    | none => none
    | some f => if f.size ≤ 10 * 1024 * 1024 then none else some "File too large"),
   [])

/-- POST /remove-bg of src/server.js. `norm` is the sharp normalization oracle
(`sharp(buffer).rotate().png({quality: 95, compressionLevel: 6}).toBuffer()`),
`rb` the `removeBackground` oracle, `now` the value of `Date.now()` at response
time. The multer middleware runs first; the handler then checks
`!API_KEY || token !== API_KEY`, the presence of `req.file`, normalizes, and
invokes background removal. -/
def removeBgServer (apiKey : Option String) (norm rb : List Nat → Except String (List Nat))
    (now : Nat) (req : Request) : Response × List Step :=
  match multerFiltered "Only PNG, JPG, JPEG, WebP allowed" req with
  | (some msg, s) => ({ status := 500, body := Body.errorHtml msg }, s)
  | (none, s) =>
    if serverUnauthorized apiKey (extractToken req.authorization) then
      ({ status := 401, body := Body.json "Unauthorized" none none }, s ++ [Step.handlerEntered])
    else
      match req.file with
      | none => ({ status := 400, body := Body.json "No image uploaded" none none },
                 s ++ [Step.handlerEntered])
      | some f =>
        match norm f.buffer with
        | Except.error e =>
          ({ status := 400, body := Body.json "Invalid image" (some e) none },
           s ++ [Step.handlerEntered, Step.logProcessing f.originalname, Step.normalizeInvoked])
        | Except.ok buf =>
          match rb buf with
          | Except.ok out =>
            ({ status := 200, contentType := some "image/png",
               contentDisposition := some ("attachment; filename=\"nobg_" ++ toString now ++ ".png\""),
               body := Body.binary out },
             s ++ [Step.handlerEntered, Step.logProcessing f.originalname, Step.normalizeInvoked,
                   Step.removalInvoked])
          | Except.error e =>
            ({ status := 500, body := Body.json "Background removal failed" none (some e) },
             s ++ [Step.handlerEntered, Step.logProcessing f.originalname, Step.normalizeInvoked,
                   Step.removalInvoked])

/-- POST /remove-bg of src/unnamed/part_000: identical pipeline to server.js
except that the auth guard is the bare `token !== API_KEY`. -/
def removeBgPart000 (apiKey : Option String) (norm rb : List Nat → Except String (List Nat))
    (now : Nat) (req : Request) : Response × List Step :=
  match multerFiltered "Only PNG, JPG, JPEG, WebP allowed" req with
  | (some msg, s) => ({ status := 500, body := Body.errorHtml msg }, s)
  | (none, s) =>
    if jsNeqOptStr (extractToken req.authorization) apiKey then
      ({ status := 401, body := Body.json "Unauthorized" none none }, s ++ [Step.handlerEntered])
    else
      match req.file with
      | none => ({ status := 400, body := Body.json "No image uploaded" none none },
                 s ++ [Step.handlerEntered])
      | some f =>
        match norm f.buffer with
        | Except.error e =>
          ({ status := 400, body := Body.json "Invalid image" (some e) none },
           s ++ [Step.handlerEntered, Step.logProcessing f.originalname, Step.normalizeInvoked])
        | Except.ok buf =>
          match rb buf with
          | Except.ok out =>
            ({ status := 200, contentType := some "image/png",
               contentDisposition := some ("attachment; filename=\"nobg_" ++ toString now ++ ".png\""),
               body := Body.binary out },
             s ++ [Step.handlerEntered, Step.logProcessing f.originalname, Step.normalizeInvoked,
                   Step.removalInvoked])
          | Except.error e =>
            ({ status := 500, body := Body.json "Background removal failed" none (some e) },
             s ++ [Step.handlerEntered, Step.logProcessing f.originalname, Step.normalizeInvoked,
                   Step.removalInvoked])

/-- POST /remove-bg of src/unnamed/part_001 (the minimal baseline variant): multer
has no fileFilter, there is no sharp normalization, `removeBackground` is called
directly on the uploaded buffer, the output filename is the fixed
`removed_bg.png`, and a thrown error yields `{error: 'Processing failed'}`. -/
def removeBgPart001 (apiKey : Option String) (rb : List Nat → Except String (List Nat))
    (req : Request) : Response × List Step :=
  match multerPart001 req with
  | (some msg, s) => ({ status := 500, body := Body.errorHtml msg }, s)
  | (none, s) =>
    if jsNeqOptStr (extractToken req.authorization) apiKey then
      ({ status := 401, body := Body.json "Unauthorized" none none }, s ++ [Step.handlerEntered])
    else
      match req.file with
      | none => ({ status := 400, body := Body.json "No image provided" none none },
                 s ++ [Step.handlerEntered])
      | some f =>
        match rb f.buffer with
        | Except.ok buf =>
          ({ status := 200, contentType := some "image/png",
             contentDisposition := some "attachment; filename=\"removed_bg.png\"",
             body := Body.binary buf },
           s ++ [Step.handlerEntered, Step.logProcessing f.originalname, Step.removalInvoked])
        | Except.error e =>
          ({ status := 500, body := Body.json "Processing failed" none (some e) },
           s ++ [Step.handlerEntered, Step.logProcessing f.originalname, Step.removalInvoked])

/-- POST /remove-bg of src/unnamed/part_002 (the eager-download variant):
`API_KEY = process.env.API_KEY || 'demo-key-123'` (fallback when unset or empty),
fileFilter message `Invalid file`, sharp normalization with `{quality: 95}`,
and error body `{error: 'Removal failed'}`. -/
def removeBgPart002 (apiKeyEnv : Option String) (norm rb : List Nat → Except String (List Nat))
    (now : Nat) (req : Request) : Response × List Step :=
  match multerFiltered "Invalid file" req with
  | (some msg, s) => ({ status := 500, body := Body.errorHtml msg }, s)
  | (none, s) =>
    if extractToken req.authorization != jsOr apiKeyEnv "demo-key-123" then
      ({ status := 401, body := Body.json "Unauthorized" none none }, s ++ [Step.handlerEntered])
    else
      match req.file with
      | none => ({ status := 400, body := Body.json "No image uploaded" none none },
                 s ++ [Step.handlerEntered])
      | some f =>
        match norm f.buffer with
        | Except.error e =>
          ({ status := 400, body := Body.json "Invalid image" (some e) none },
           s ++ [Step.handlerEntered, Step.logProcessing f.originalname, Step.normalizeInvoked])
        | Except.ok buf =>
          match rb buf with
          | Except.ok out =>
            ({ status := 200, contentType := some "image/png",
               contentDisposition := some ("attachment; filename=\"nobg_" ++ toString now ++ ".png\""),
               body := Body.binary out },
             s ++ [Step.handlerEntered, Step.logProcessing f.originalname, Step.normalizeInvoked,
                   Step.removalInvoked])
          | Except.error e =>
            ({ status := 500, body := Body.json "Removal failed" none (some e) },
             s ++ [Step.handlerEntered, Step.logProcessing f.originalname, Step.normalizeInvoked,
                   Step.removalInvoked])

/-- JS `MODEL_DIR.replace(/\\/g, '/')`: the global single-character regex replace
is a per-character map sending each backslash to a forward slash. -/
def bsToSlash (s : String) : String :=
  ⟨s.data.map (fun c => if c = '\\' then '/' else c)⟩

/-- server.js line 23: PUBLIC_PATH_URI with no trailing slash. -/
def PUBLIC_PATH_URI_server (MODEL_DIR : String) : String :=
  "file://" ++ bsToSlash MODEL_DIR

/-- part_000 line 22: PUBLIC_PATH_URI with a trailing slash. -/
def PUBLIC_PATH_URI_part000 (MODEL_DIR : String) : String :=
  "file://" ++ bsToSlash MODEL_DIR ++ "/"

/-- part_002 line 16: PUBLIC_PATH_URI with a trailing slash. -/
def PUBLIC_PATH_URI_part002 (MODEL_DIR : String) : String :=
  "file://" ++ bsToSlash MODEL_DIR ++ "/"

/-- The JSON body of GET /health in server.js (the variant that reports cache
state); the constant `models` field is elided. -/
structure HealthBody where
  status : String
  files_present : Bool
  file_count : Nat
deriving DecidableEq, Repr

/-- GET /health of src/server.js:
`const modelFiles = fs.existsSync(MODEL_DIR) ? fs.readdirSync(MODEL_DIR) : []`
with `files_present: modelFiles.length > 0` and `file_count: modelFiles.length`.
The directory state is `none` when the directory is absent and `some entries`
(the readdir listing) when present; the first component is the HTTP status. -/
def healthServer (dir : Option (List String)) : Nat × HealthBody :=
  (200,
   { status := "healthy",
     files_present := decide (0 < (match dir with | some es => es | none => ([] : List String)).length),
     file_count := (match dir with | some es => es | none => ([] : List String)).length })

/-- Startup events of the eager-download variant (part_002). -/
inductive StartupEvent where
  | ensureModelsCalled : StartupEvent
  | listenCalled : StartupEvent
  | dirCreated : StartupEvent
  | downloadTriggered : String → StartupEvent
  | downloadCompleted : StartupEvent
  | processExited : Nat → StartupEvent
deriving DecidableEq, Repr

/-- Startup sequence of part_002, ordered by the JS event loop: `ensureModels()`
is invoked first but suspends at its first `await` (`fs.access(MODEL_DIR)`), so
the remainder of the synchronous module script — including the `app.listen`
call — runs to completion before any cache-population work resumes. When the
directory is absent, the continuation attempts `fs.mkdir(MODEL_DIR,
{recursive: true})` and, only if that succeeds, calls
`downloadModels({model: 'medium', ...})`; a rejection of either `fs.mkdir` or
`downloadModels` propagates to the `.catch` handler, which calls
`process.exit(1)` (so on mkdir failure the download is never triggered).
`dirExists` is whether the model cache directory is present at process start,
`mkdirOk` whether directory creation succeeds, `downloadOk` whether the
download succeeds. -/
def part002Startup (dirExists mkdirOk downloadOk : Bool) : List StartupEvent :=
  [StartupEvent.ensureModelsCalled, StartupEvent.listenCalled] ++
    (if dirExists then []
     else if mkdirOk then
       [StartupEvent.dirCreated, StartupEvent.downloadTriggered "medium"] ++
         (if downloadOk then [StartupEvent.downloadCompleted] else [StartupEvent.processExited 1])
     else [StartupEvent.processExited 1])

/-! Helper lemmas shared by several claim theorems. -/

theorem multerFiltered_pass_none (m : String) (req : Request) (h : req.file = none) :
    multerFiltered m req = (none, []) := by
  simp [multerFiltered, h]

theorem multerFiltered_pass_ok (m : String) (req : Request) (f : UploadedFile)
    (hf : req.file = some f) (hm : allowed.contains f.mimetype = true)
    (hs : f.size ≤ 15 * 1024 * 1024) :
    multerFiltered m req = (none, [Step.fileFilterRan]) := by
  simp at hm
  simp [multerFiltered, hf, hm, hs]

theorem multerFiltered_reject_mime (m : String) (req : Request) (f : UploadedFile)
    (hf : req.file = some f) (hm : allowed.contains f.mimetype = false) :
    multerFiltered m req = (some m, [Step.fileFilterRan]) := by
  simp at hm
  simp [multerFiltered, hf, hm]

theorem multerPart001_pass_none (req : Request) (h : req.file = none) :
    multerPart001 req = (none, []) := by
  simp [multerPart001, h]

theorem multerPart001_pass_ok (req : Request) (f : UploadedFile)
    (hf : req.file = some f) (hs : f.size ≤ 10 * 1024 * 1024) :
    multerPart001 req = (none, []) := by
  simp [multerPart001, hf, hs]

theorem multerFiltered_steps (m : String) (req : Request) :
    ∀ s ∈ (multerFiltered m req).2, s = Step.fileFilterRan := by
  intro s hs
  cases hf : req.file with
  | none => simp [multerFiltered, hf] at hs
  | some f => simp [multerFiltered, hf] at hs; exact hs

theorem jsNeqOptStr_self (k : String) : jsNeqOptStr k (some k) = false := by
  simp [jsNeqOptStr]

theorem no_processing_of_filter_steps (l : List Step)
    (h : ∀ x ∈ l, x = Step.fileFilterRan) :
    Step.normalizeInvoked ∉ l ++ [Step.handlerEntered]
    ∧ Step.removalInvoked ∉ l ++ [Step.handlerEntered]
    ∧ ∀ n, Step.logProcessing n ∉ l ++ [Step.handlerEntered] := by
  refine ⟨?_, ?_, ?_⟩
  · intro hmem
    rcases List.mem_append.mp hmem with hx | hx
    · exact absurd (h _ hx) (by decide)
    · simp at hx
  · intro hmem
    rcases List.mem_append.mp hmem with hx | hx
    · exact absurd (h _ hx) (by decide)
    · simp at hx
  · intro n hmem
    rcases List.mem_append.mp hmem with hx | hx
    · exact absurd (h _ hx) (by simp)
    · simp at hx

theorem ne_append_of_char_at (pre rest other : String) (i : Nat)
    (hi : i < pre.data.length) (hne : other.data[i]? ≠ pre.data[i]?) :
    other ≠ pre ++ rest := by
  intro h
  apply hne
  rw [h]
  show (pre ++ rest).data[i]? = pre.data[i]?
  have hd : (pre ++ rest).data = pre.data ++ rest.data := by
    cases pre; cases rest; rfl
  rw [hd, List.getElem?_append, if_pos hi]

/-! Claim theorems. -/

/-- C1 (amended): for every POST /remove-bg request whose bearer token does not
match the configured API key, if the request passes that variant's multer
middleware (no file, or a file the middleware accepts), the response is 401
Unauthorized and no handler-side validation, logging, normalization or removal
runs; however, the multer upload validation itself runs before the
authentication check, so middleware-rejected uploads are answered by the
middleware error (not 401) without the token ever being inspected. Stated for
server.js and for part_001, each under its own middleware. -/
theorem c1_auth_rejects_first
    (norm rb : List Nat → Except String (List Nat)) (now : Nat)
    (apiKey : Option String) (req : Request)
    (hbad : jsNeqOptStr (extractToken req.authorization) apiKey = true) :
    ((multerFiltered "Only PNG, JPG, JPEG, WebP allowed" req).1 = none →
      (removeBgServer apiKey norm rb now req).1.status = 401
      ∧ (removeBgServer apiKey norm rb now req).1.body = Body.json "Unauthorized" none none
      ∧ Step.normalizeInvoked ∉ (removeBgServer apiKey norm rb now req).2
      ∧ Step.removalInvoked ∉ (removeBgServer apiKey norm rb now req).2
      ∧ ∀ n, Step.logProcessing n ∉ (removeBgServer apiKey norm rb now req).2)
    ∧ ((multerPart001 req).1 = none →
      (removeBgPart001 apiKey rb req).1.status = 401
      ∧ (removeBgPart001 apiKey rb req).1.body = Body.json "Unauthorized" none none
      ∧ Step.normalizeInvoked ∉ (removeBgPart001 apiKey rb req).2
      ∧ Step.removalInvoked ∉ (removeBgPart001 apiKey rb req).2
      ∧ ∀ n, Step.logProcessing n ∉ (removeBgPart001 apiKey rb req).2) := by
  constructor
  · intro hmwS
    have hsubS := multerFiltered_steps "Only PNG, JPG, JPEG, WebP allowed" req
    rcases hpS : multerFiltered "Only PNG, JPG, JPEG, WebP allowed" req with ⟨oS, sS⟩
    rw [hpS] at hmwS hsubS
    subst hmwS
    have hu : serverUnauthorized apiKey (extractToken req.authorization) = true := by
      simp [serverUnauthorized, hbad]
    have hES : removeBgServer apiKey norm rb now req
        = ({ status := 401, body := Body.json "Unauthorized" none none },
           sS ++ [Step.handlerEntered]) := by
      simp [removeBgServer, hpS, hu]
    have hnop := no_processing_of_filter_steps sS (by intro x hx; exact hsubS x hx)
    rw [hES]
    exact ⟨rfl, rfl, hnop.1, hnop.2.1, hnop.2.2⟩
  · intro hmw1
    rcases hp1 : multerPart001 req with ⟨o1, s1⟩
    rw [hp1] at hmw1
    subst hmw1
    have hs1 : s1 = [] := by
      have h2 : (multerPart001 req).2 = [] := by simp [multerPart001]
      rw [hp1] at h2
      exact h2
    subst hs1
    have hE1 : removeBgPart001 apiKey rb req
        = ({ status := 401, body := Body.json "Unauthorized" none none },
           [Step.handlerEntered]) := by
      simp [removeBgPart001, hp1, hbad]
    rw [hE1]
    refine ⟨rfl, rfl, by decide, by decide, ?_⟩
    intro n hmem
    simp at hmem

/-- C1 counterexample: a request whose bearer token does not match the key (no
Authorization header at all) but whose file has a disallowed MIME type is
answered by the multer middleware error (500 via Express's default error
handler), not 401, and the upload validation (fileFilter) runs even though
authentication was never passed: validation is not sequenced after the
authentication check. -/
theorem c1_counterexample :
    removeBgServer (some "k") (fun _ => Except.ok []) (fun _ => Except.ok []) 0
        ⟨none, some ⟨"a.txt", "text/plain", 4, [1]⟩⟩
      = ({ status := 500, body := Body.errorHtml "Only PNG, JPG, JPEG, WebP allowed" },
         [Step.fileFilterRan])
    ∧ ¬ (removeBgServer (some "k") (fun _ => Except.ok []) (fun _ => Except.ok []) 0
        ⟨none, some ⟨"a.txt", "text/plain", 4, [1]⟩⟩).1.status = 401 := by
  decide

/-- C1 witness: the amended theorem applied to a concrete tokenless request with
no file against the key "k". -/
theorem c1_witness :
    (multerFiltered "Only PNG, JPG, JPEG, WebP allowed"
        (⟨none, none⟩ : Request)).1 = none
    ∧ (multerPart001 (⟨none, none⟩ : Request)).1 = none
    ∧ jsNeqOptStr (extractToken none) (some "k") = true
    ∧ (((removeBgServer (some "k") (fun _ => Except.ok []) (fun _ => Except.ok []) 0
          ⟨none, none⟩).1.status = 401
        ∧ (removeBgServer (some "k") (fun _ => Except.ok []) (fun _ => Except.ok []) 0
          ⟨none, none⟩).1.body = Body.json "Unauthorized" none none
        ∧ Step.normalizeInvoked ∉ (removeBgServer (some "k") (fun _ => Except.ok [])
            (fun _ => Except.ok []) 0 ⟨none, none⟩).2
        ∧ Step.removalInvoked ∉ (removeBgServer (some "k") (fun _ => Except.ok [])
            (fun _ => Except.ok []) 0 ⟨none, none⟩).2
        ∧ ∀ n, Step.logProcessing n ∉ (removeBgServer (some "k") (fun _ => Except.ok [])
            (fun _ => Except.ok []) 0 ⟨none, none⟩).2)
      ∧ ((removeBgPart001 (some "k") (fun _ => Except.ok []) ⟨none, none⟩).1.status = 401
        ∧ (removeBgPart001 (some "k") (fun _ => Except.ok []) ⟨none, none⟩).1.body
            = Body.json "Unauthorized" none none
        ∧ Step.normalizeInvoked ∉ (removeBgPart001 (some "k") (fun _ => Except.ok [])
            ⟨none, none⟩).2
        ∧ Step.removalInvoked ∉ (removeBgPart001 (some "k") (fun _ => Except.ok [])
            ⟨none, none⟩).2
        ∧ ∀ n, Step.logProcessing n ∉ (removeBgPart001 (some "k") (fun _ => Except.ok [])
            ⟨none, none⟩).2)) :=
  ⟨by decide, by decide, by decide,
   ⟨(c1_auth_rejects_first (fun _ => Except.ok []) (fun _ => Except.ok []) 0 (some "k")
       ⟨none, none⟩ (by decide)).1 (by decide),
    (c1_auth_rejects_first (fun _ => Except.ok []) (fun _ => Except.ok []) 0 (some "k")
       ⟨none, none⟩ (by decide)).2 (by decide)⟩⟩

/-- C2 (amended): in the variants with the sharp normalization step (server.js,
part_000, part_002), every authenticated request (one passing that variant's
own auth guard — for part_002 the key may be the fallback demo-key-123 when
the environment key is unset) carrying an allow-listed file within the size
limit whose bytes fail to decode is answered 400 with error "Invalid image"
carrying the decode failure as details, and the background-removal step is
never invoked; the minimal baseline variant (part_001) has no normalization
step, so there a decode failure surfaces from the removal call as a 500. -/
theorem c2_invalid_image_400
    (norm rb : List Nat → Except String (List Nat)) (now : Nat)
    (req : Request) (f : UploadedFile) (e : String)
    (hfile : req.file = some f)
    (hmime : allowed.contains f.mimetype = true)
    (hsize : f.size ≤ 15 * 1024 * 1024)
    (hdec : norm f.buffer = Except.error e) :
    (∀ apiKey : Option String,
      serverUnauthorized apiKey (extractToken req.authorization) = false →
      (removeBgServer apiKey norm rb now req).1.status = 400
      ∧ (removeBgServer apiKey norm rb now req).1.body = Body.json "Invalid image" (some e) none
      ∧ Step.removalInvoked ∉ (removeBgServer apiKey norm rb now req).2)
    ∧ (∀ apiKey : Option String,
      jsNeqOptStr (extractToken req.authorization) apiKey = false →
      (removeBgPart000 apiKey norm rb now req).1.status = 400
      ∧ (removeBgPart000 apiKey norm rb now req).1.body = Body.json "Invalid image" (some e) none
      ∧ Step.removalInvoked ∉ (removeBgPart000 apiKey norm rb now req).2)
    ∧ (∀ envKey : Option String,
      (extractToken req.authorization != jsOr envKey "demo-key-123") = false →
      (removeBgPart002 envKey norm rb now req).1.status = 400
      ∧ (removeBgPart002 envKey norm rb now req).1.body = Body.json "Invalid image" (some e) none
      ∧ Step.removalInvoked ∉ (removeBgPart002 envKey norm rb now req).2) := by
  have hpS := multerFiltered_pass_ok "Only PNG, JPG, JPEG, WebP allowed" req f hfile hmime hsize
  have hp2 := multerFiltered_pass_ok "Invalid file" req f hfile hmime hsize
  refine ⟨?_, ?_, ?_⟩
  · intro apiKey huS
    have hES : removeBgServer apiKey norm rb now req
        = ({ status := 400, body := Body.json "Invalid image" (some e) none },
           [Step.fileFilterRan, Step.handlerEntered, Step.logProcessing f.originalname,
            Step.normalizeInvoked]) := by
      simp [removeBgServer, hpS, huS, hfile, hdec]
    rw [hES]
    exact ⟨rfl, rfl, by simp⟩
  · intro apiKey hu0
    have hE0 : removeBgPart000 apiKey norm rb now req
        = ({ status := 400, body := Body.json "Invalid image" (some e) none },
           [Step.fileFilterRan, Step.handlerEntered, Step.logProcessing f.originalname,
            Step.normalizeInvoked]) := by
      simp [removeBgPart000, hpS, hu0, hfile, hdec]
    rw [hE0]
    exact ⟨rfl, rfl, by simp⟩
  · intro envKey hu2
    have hE2 : removeBgPart002 envKey norm rb now req
        = ({ status := 400, body := Body.json "Invalid image" (some e) none },
           [Step.fileFilterRan, Step.handlerEntered, Step.logProcessing f.originalname,
            Step.normalizeInvoked]) := by
      simp [removeBgPart002, hp2, hu2, hfile, hdec]
    rw [hE2]
    exact ⟨rfl, rfl, by simp⟩

/-- C2 counterexample: in part_001 (which has no normalization step), an
authenticated request whose PNG-typed bytes fail to decode reaches the
background-removal call, which is invoked and fails, producing a 500
"Processing failed" response — not the claimed 400 with removal never
invoked. -/
theorem c2_counterexample :
    (removeBgPart001 (some "k") (fun _ => Except.error "unsupported image format")
        ⟨some "Bearer k", some ⟨"bad.png", "image/png", 3, [1, 2, 3]⟩⟩).1.status = 500
    ∧ (removeBgPart001 (some "k") (fun _ => Except.error "unsupported image format")
        ⟨some "Bearer k", some ⟨"bad.png", "image/png", 3, [1, 2, 3]⟩⟩).1.body
        = Body.json "Processing failed" none (some "unsupported image format")
    ∧ Step.removalInvoked ∈ (removeBgPart001 (some "k")
        (fun _ => Except.error "unsupported image format")
        ⟨some "Bearer k", some ⟨"bad.png", "image/png", 3, [1, 2, 3]⟩⟩).2 := by
  decide

/-- C2 witness: the amended theorem applied to a concrete authenticated request
with an image/png file whose bytes the normalization oracle rejects; the
part_002 conjunct is instantiated at an unset environment key, authenticated
with the fallback key demo-key-123. -/
theorem c2_witness :
    (⟨some "Bearer secret", some ⟨"a.png", "image/png", 100, [1]⟩⟩ : Request).file
        = some ⟨"a.png", "image/png", 100, [1]⟩
    ∧ allowed.contains "image/png" = true
    ∧ (100 : Nat) ≤ 15 * 1024 * 1024
    ∧ ((fun _ => (Except.error "bad" : Except String (List Nat))) ([1] : List Nat)
        = Except.error "bad")
    ∧ (((removeBgServer (some "secret") (fun _ => Except.error "bad") (fun _ => Except.ok []) 0
          ⟨some "Bearer secret", some ⟨"a.png", "image/png", 100, [1]⟩⟩).1.status = 400
        ∧ (removeBgServer (some "secret") (fun _ => Except.error "bad") (fun _ => Except.ok []) 0
          ⟨some "Bearer secret", some ⟨"a.png", "image/png", 100, [1]⟩⟩).1.body
            = Body.json "Invalid image" (some "bad") none
        ∧ Step.removalInvoked ∉ (removeBgServer (some "secret") (fun _ => Except.error "bad")
            (fun _ => Except.ok []) 0
            ⟨some "Bearer secret", some ⟨"a.png", "image/png", 100, [1]⟩⟩).2)
      ∧ ((removeBgPart000 (some "secret") (fun _ => Except.error "bad") (fun _ => Except.ok []) 0
          ⟨some "Bearer secret", some ⟨"a.png", "image/png", 100, [1]⟩⟩).1.status = 400
        ∧ (removeBgPart000 (some "secret") (fun _ => Except.error "bad") (fun _ => Except.ok []) 0
          ⟨some "Bearer secret", some ⟨"a.png", "image/png", 100, [1]⟩⟩).1.body
            = Body.json "Invalid image" (some "bad") none
        ∧ Step.removalInvoked ∉ (removeBgPart000 (some "secret") (fun _ => Except.error "bad")
            (fun _ => Except.ok []) 0
            ⟨some "Bearer secret", some ⟨"a.png", "image/png", 100, [1]⟩⟩).2)
      ∧ ((removeBgPart002 none (fun _ => Except.error "bad") (fun _ => Except.ok []) 0
          ⟨some "Bearer demo-key-123", some ⟨"a.png", "image/png", 100, [1]⟩⟩).1.status = 400
        ∧ (removeBgPart002 none (fun _ => Except.error "bad") (fun _ => Except.ok []) 0
          ⟨some "Bearer demo-key-123", some ⟨"a.png", "image/png", 100, [1]⟩⟩).1.body
            = Body.json "Invalid image" (some "bad") none
        ∧ Step.removalInvoked ∉ (removeBgPart002 none (fun _ => Except.error "bad")
            (fun _ => Except.ok []) 0
            ⟨some "Bearer demo-key-123", some ⟨"a.png", "image/png", 100, [1]⟩⟩).2)) :=
  ⟨by decide, by decide, by decide, rfl,
   (c2_invalid_image_400 (fun _ => Except.error "bad") (fun _ => Except.ok []) 0
     ⟨some "Bearer secret", some ⟨"a.png", "image/png", 100, [1]⟩⟩
     ⟨"a.png", "image/png", 100, [1]⟩ "bad"
     (by decide) (by decide) (by decide) rfl).1 (some "secret") (by decide),
   (c2_invalid_image_400 (fun _ => Except.error "bad") (fun _ => Except.ok []) 0
     ⟨some "Bearer secret", some ⟨"a.png", "image/png", 100, [1]⟩⟩
     ⟨"a.png", "image/png", 100, [1]⟩ "bad"
     (by decide) (by decide) (by decide) rfl).2.1 (some "secret") (by decide),
   (c2_invalid_image_400 (fun _ => Except.error "bad") (fun _ => Except.ok []) 0
     ⟨some "Bearer demo-key-123", some ⟨"a.png", "image/png", 100, [1]⟩⟩
     ⟨"a.png", "image/png", 100, [1]⟩ "bad"
     (by decide) (by decide) (by decide) rfl).2.2 none (by decide)⟩

/-- C4 (amended): every successful POST /remove-bg request is answered 200 with
a binary body and Content-Type exactly image/png; the Content-Disposition
header is attachment with filename `nobg_<timestamp>.png` in server.js,
part_000 and part_002, while the minimal baseline variant (part_001) uses the
fixed filename `removed_bg.png`. Each variant is stated under its own
middleware acceptance and its own auth guard passing. -/
theorem c4_success_response
    (norm rb : List Nat → Except String (List Nat)) (now : Nat)
    (req : Request) (f : UploadedFile) (buf out out1 : List Nat)
    (hfile : req.file = some f)
    (hnorm : norm f.buffer = Except.ok buf)
    (hrb : rb buf = Except.ok out)
    (hrb1 : rb f.buffer = Except.ok out1) :
    (∀ apiKey : Option String,
      (multerFiltered "Only PNG, JPG, JPEG, WebP allowed" req).1 = none →
      serverUnauthorized apiKey (extractToken req.authorization) = false →
      (removeBgServer apiKey norm rb now req).1
        = { status := 200, contentType := some "image/png",
            contentDisposition := some ("attachment; filename=\"nobg_" ++ toString now ++ ".png\""),
            body := Body.binary out })
    ∧ (∀ apiKey : Option String,
      (multerFiltered "Only PNG, JPG, JPEG, WebP allowed" req).1 = none →
      jsNeqOptStr (extractToken req.authorization) apiKey = false →
      (removeBgPart000 apiKey norm rb now req).1
        = { status := 200, contentType := some "image/png",
            contentDisposition := some ("attachment; filename=\"nobg_" ++ toString now ++ ".png\""),
            body := Body.binary out })
    ∧ (∀ envKey : Option String,
      (multerFiltered "Invalid file" req).1 = none →
      (extractToken req.authorization != jsOr envKey "demo-key-123") = false →
      (removeBgPart002 envKey norm rb now req).1
        = { status := 200, contentType := some "image/png",
            contentDisposition := some ("attachment; filename=\"nobg_" ++ toString now ++ ".png\""),
            body := Body.binary out })
    ∧ (∀ apiKey : Option String,
      (multerPart001 req).1 = none →
      jsNeqOptStr (extractToken req.authorization) apiKey = false →
      (removeBgPart001 apiKey rb req).1
        = { status := 200, contentType := some "image/png",
            contentDisposition := some "attachment; filename=\"removed_bg.png\"",
            body := Body.binary out1 }) := by
  refine ⟨?_, ?_, ?_, ?_⟩
  · intro apiKey hmw huS
    rcases hp : multerFiltered "Only PNG, JPG, JPEG, WebP allowed" req with ⟨o, s⟩
    rw [hp] at hmw
    subst hmw
    simp [removeBgServer, hp, huS, hfile, hnorm, hrb]
  · intro apiKey hmw hu0
    rcases hp : multerFiltered "Only PNG, JPG, JPEG, WebP allowed" req with ⟨o, s⟩
    rw [hp] at hmw
    subst hmw
    simp [removeBgPart000, hp, hu0, hfile, hnorm, hrb]
  · intro envKey hmw hu2
    rcases hp : multerFiltered "Invalid file" req with ⟨o, s⟩
    rw [hp] at hmw
    subst hmw
    simp [removeBgPart002, hp, hu2, hfile, hnorm, hrb]
  · intro apiKey hmw hu0
    rcases hp : multerPart001 req with ⟨o, s⟩
    rw [hp] at hmw
    subst hmw
    simp [removeBgPart001, hp, hu0, hfile, hrb1]

/-- C4 counterexample: a successful request in the minimal baseline variant
(part_001) is answered with Content-Disposition filename `removed_bg.png`,
which is not of the form `nobg_<name-or-timestamp>.png` required by the claim
(no string can fill the middle of `attachment; filename="nobg_<...>.png"` to
produce it: the characters after the opening quote differ). -/
theorem c4_counterexample :
    (removeBgPart001 (some "k") (fun _ => Except.ok [7])
        ⟨some "Bearer k", some ⟨"a.png", "image/png", 3, [1, 2, 3]⟩⟩).1.status = 200
    ∧ (removeBgPart001 (some "k") (fun _ => Except.ok [7])
        ⟨some "Bearer k", some ⟨"a.png", "image/png", 3, [1, 2, 3]⟩⟩).1.contentDisposition
        = some "attachment; filename=\"removed_bg.png\""
    ∧ ¬ ∃ mid : String,
        (removeBgPart001 (some "k") (fun _ => Except.ok [7])
          ⟨some "Bearer k", some ⟨"a.png", "image/png", 3, [1, 2, 3]⟩⟩).1.contentDisposition
        = some ("attachment; filename=\"nobg_" ++ (mid ++ ".png\"")) := by
  refine ⟨by decide, by decide, ?_⟩
  rintro ⟨mid, h⟩
  have hcd : (removeBgPart001 (some "k") (fun _ => Except.ok [7])
      ⟨some "Bearer k", some ⟨"a.png", "image/png", 3, [1, 2, 3]⟩⟩).1.contentDisposition
      = some "attachment; filename=\"removed_bg.png\"" := by decide
  rw [hcd] at h
  have h2 := Option.some.inj h
  exact ne_append_of_char_at "attachment; filename=\"nobg_" (mid ++ ".png\"")
    "attachment; filename=\"removed_bg.png\"" 22 (by decide) (by decide) h2

/-- C4 witness: the amended theorem applied to a concrete authenticated request
whose normalization and removal oracles succeed, at timestamp 5. -/
theorem c4_witness :
    (⟨some "Bearer secret", some ⟨"photo.png", "image/png", 3, [9]⟩⟩ : Request).file
        = some ⟨"photo.png", "image/png", 3, [9]⟩
    ∧ ((fun _ => (Except.ok [1] : Except String (List Nat))) ([9] : List Nat) = Except.ok [1])
    ∧ ((fun _ => (Except.ok [2] : Except String (List Nat))) ([1] : List Nat) = Except.ok [2])
    ∧ ((removeBgServer (some "secret") (fun _ => Except.ok [1]) (fun _ => Except.ok [2]) 5
          ⟨some "Bearer secret", some ⟨"photo.png", "image/png", 3, [9]⟩⟩).1
        = { status := 200, contentType := some "image/png",
            contentDisposition := some ("attachment; filename=\"nobg_" ++ toString 5 ++ ".png\""),
            body := Body.binary [2] }
      ∧ (removeBgPart000 (some "secret") (fun _ => Except.ok [1]) (fun _ => Except.ok [2]) 5
          ⟨some "Bearer secret", some ⟨"photo.png", "image/png", 3, [9]⟩⟩).1
        = { status := 200, contentType := some "image/png",
            contentDisposition := some ("attachment; filename=\"nobg_" ++ toString 5 ++ ".png\""),
            body := Body.binary [2] }
      ∧ (removeBgPart002 none (fun _ => Except.ok [1]) (fun _ => Except.ok [2]) 5
          ⟨some "Bearer demo-key-123", some ⟨"photo.png", "image/png", 3, [9]⟩⟩).1
        = { status := 200, contentType := some "image/png",
            contentDisposition := some ("attachment; filename=\"nobg_" ++ toString 5 ++ ".png\""),
            body := Body.binary [2] }
      ∧ (removeBgPart001 (some "secret") (fun _ => Except.ok [2])
          ⟨some "Bearer secret", some ⟨"photo.png", "image/png", 3, [9]⟩⟩).1
        = { status := 200, contentType := some "image/png",
            contentDisposition := some "attachment; filename=\"removed_bg.png\"",
            body := Body.binary [2] }) :=
  ⟨by decide, rfl, rfl,
   (c4_success_response (fun _ => Except.ok [1]) (fun _ => Except.ok [2]) 5
      ⟨some "Bearer secret", some ⟨"photo.png", "image/png", 3, [9]⟩⟩
      ⟨"photo.png", "image/png", 3, [9]⟩ [1] [2] [2]
      (by decide) rfl rfl rfl).1 (some "secret") (by decide) (by decide),
   (c4_success_response (fun _ => Except.ok [1]) (fun _ => Except.ok [2]) 5
      ⟨some "Bearer secret", some ⟨"photo.png", "image/png", 3, [9]⟩⟩
      ⟨"photo.png", "image/png", 3, [9]⟩ [1] [2] [2]
      (by decide) rfl rfl rfl).2.1 (some "secret") (by decide) (by decide),
   (c4_success_response (fun _ => Except.ok [1]) (fun _ => Except.ok [2]) 5
      ⟨some "Bearer demo-key-123", some ⟨"photo.png", "image/png", 3, [9]⟩⟩
      ⟨"photo.png", "image/png", 3, [9]⟩ [1] [2] [2]
      (by decide) rfl rfl rfl).2.2.1 none (by decide) (by decide),
   (c4_success_response (fun _ => Except.ok [1]) (fun _ => Except.ok [2]) 5
      ⟨some "Bearer secret", some ⟨"photo.png", "image/png", 3, [9]⟩⟩
      ⟨"photo.png", "image/png", 3, [9]⟩ [1] [2] [2]
      (by decide) rfl rfl rfl).2.2.2 (some "secret") (by decide) (by decide)⟩

/-- C5 (amended): in the variants with a multer fileFilter (server.js, part_000,
part_002), every uploaded file whose declared MIME type is outside
{image/png, image/jpeg, image/jpg, image/webp} is rejected by the middleware —
before the route handler and before normalization — with the fileFilter's
unsupported-file-type error (answered 500 by Express's default error handler);
the minimal baseline variant (part_001) has no fileFilter and lets such
uploads reach the handler. -/
theorem c5_mime_rejected
    (norm rb : List Nat → Except String (List Nat)) (now : Nat) (apiKey : Option String)
    (req : Request) (f : UploadedFile)
    (hfile : req.file = some f)
    (hmime : allowed.contains f.mimetype = false) :
    (removeBgServer apiKey norm rb now req
        = ({ status := 500, body := Body.errorHtml "Only PNG, JPG, JPEG, WebP allowed" },
           [Step.fileFilterRan])
      ∧ Step.handlerEntered ∉ (removeBgServer apiKey norm rb now req).2
      ∧ Step.normalizeInvoked ∉ (removeBgServer apiKey norm rb now req).2
      ∧ Step.removalInvoked ∉ (removeBgServer apiKey norm rb now req).2)
    ∧ (removeBgPart000 apiKey norm rb now req
        = ({ status := 500, body := Body.errorHtml "Only PNG, JPG, JPEG, WebP allowed" },
           [Step.fileFilterRan])
      ∧ Step.handlerEntered ∉ (removeBgPart000 apiKey norm rb now req).2
      ∧ Step.normalizeInvoked ∉ (removeBgPart000 apiKey norm rb now req).2
      ∧ Step.removalInvoked ∉ (removeBgPart000 apiKey norm rb now req).2)
    ∧ (removeBgPart002 apiKey norm rb now req
        = ({ status := 500, body := Body.errorHtml "Invalid file" }, [Step.fileFilterRan])
      ∧ Step.handlerEntered ∉ (removeBgPart002 apiKey norm rb now req).2
      ∧ Step.normalizeInvoked ∉ (removeBgPart002 apiKey norm rb now req).2
      ∧ Step.removalInvoked ∉ (removeBgPart002 apiKey norm rb now req).2) := by
  have hrS := multerFiltered_reject_mime "Only PNG, JPG, JPEG, WebP allowed" req f hfile hmime
  have hr2 := multerFiltered_reject_mime "Invalid file" req f hfile hmime
  have hES : removeBgServer apiKey norm rb now req
      = ({ status := 500, body := Body.errorHtml "Only PNG, JPG, JPEG, WebP allowed" },
         [Step.fileFilterRan]) := by
    simp [removeBgServer, hrS]
  have hE0 : removeBgPart000 apiKey norm rb now req
      = ({ status := 500, body := Body.errorHtml "Only PNG, JPG, JPEG, WebP allowed" },
         [Step.fileFilterRan]) := by
    simp [removeBgPart000, hrS]
  have hE2 : removeBgPart002 apiKey norm rb now req
      = ({ status := 500, body := Body.errorHtml "Invalid file" }, [Step.fileFilterRan]) := by
    simp [removeBgPart002, hr2]
  refine ⟨⟨hES, ?_, ?_, ?_⟩, ⟨hE0, ?_, ?_, ?_⟩, ⟨hE2, ?_, ?_, ?_⟩⟩ <;>
    first
      | (rw [hES]; decide)
      | (rw [hE0]; decide)
      | (rw [hE2]; decide)

/-- C5 counterexample: in part_001 (no fileFilter), an authenticated upload with
declared MIME type text/plain is not rejected: the route handler runs and the
background-removal step is invoked on it. -/
theorem c5_counterexample :
    (removeBgPart001 (some "k") (fun _ => Except.ok [9])
        ⟨some "Bearer k", some ⟨"doc.txt", "text/plain", 4, [1]⟩⟩).1.status = 200
    ∧ Step.handlerEntered ∈ (removeBgPart001 (some "k") (fun _ => Except.ok [9])
        ⟨some "Bearer k", some ⟨"doc.txt", "text/plain", 4, [1]⟩⟩).2
    ∧ Step.removalInvoked ∈ (removeBgPart001 (some "k") (fun _ => Except.ok [9])
        ⟨some "Bearer k", some ⟨"doc.txt", "text/plain", 4, [1]⟩⟩).2 := by
  decide

/-- C5 witness: the amended theorem applied to a concrete upload declared as
text/plain. -/
theorem c5_witness :
    (⟨none, some ⟨"doc.txt", "text/plain", 4, [1]⟩⟩ : Request).file
        = some ⟨"doc.txt", "text/plain", 4, [1]⟩
    ∧ allowed.contains "text/plain" = false
    ∧ ((removeBgServer (some "k") (fun _ => Except.ok []) (fun _ => Except.ok []) 0
          ⟨none, some ⟨"doc.txt", "text/plain", 4, [1]⟩⟩
        = ({ status := 500, body := Body.errorHtml "Only PNG, JPG, JPEG, WebP allowed" },
           [Step.fileFilterRan])
      ∧ Step.handlerEntered ∉ (removeBgServer (some "k") (fun _ => Except.ok [])
          (fun _ => Except.ok []) 0 ⟨none, some ⟨"doc.txt", "text/plain", 4, [1]⟩⟩).2
      ∧ Step.normalizeInvoked ∉ (removeBgServer (some "k") (fun _ => Except.ok [])
          (fun _ => Except.ok []) 0 ⟨none, some ⟨"doc.txt", "text/plain", 4, [1]⟩⟩).2
      ∧ Step.removalInvoked ∉ (removeBgServer (some "k") (fun _ => Except.ok [])
          (fun _ => Except.ok []) 0 ⟨none, some ⟨"doc.txt", "text/plain", 4, [1]⟩⟩).2)
      ∧ (removeBgPart000 (some "k") (fun _ => Except.ok []) (fun _ => Except.ok []) 0
          ⟨none, some ⟨"doc.txt", "text/plain", 4, [1]⟩⟩
        = ({ status := 500, body := Body.errorHtml "Only PNG, JPG, JPEG, WebP allowed" },
           [Step.fileFilterRan])
      ∧ Step.handlerEntered ∉ (removeBgPart000 (some "k") (fun _ => Except.ok [])
          (fun _ => Except.ok []) 0 ⟨none, some ⟨"doc.txt", "text/plain", 4, [1]⟩⟩).2
      ∧ Step.normalizeInvoked ∉ (removeBgPart000 (some "k") (fun _ => Except.ok [])
          (fun _ => Except.ok []) 0 ⟨none, some ⟨"doc.txt", "text/plain", 4, [1]⟩⟩).2
      ∧ Step.removalInvoked ∉ (removeBgPart000 (some "k") (fun _ => Except.ok [])
          (fun _ => Except.ok []) 0 ⟨none, some ⟨"doc.txt", "text/plain", 4, [1]⟩⟩).2)
      ∧ (removeBgPart002 (some "k") (fun _ => Except.ok []) (fun _ => Except.ok []) 0
          ⟨none, some ⟨"doc.txt", "text/plain", 4, [1]⟩⟩
        = ({ status := 500, body := Body.errorHtml "Invalid file" }, [Step.fileFilterRan])
      ∧ Step.handlerEntered ∉ (removeBgPart002 (some "k") (fun _ => Except.ok [])
          (fun _ => Except.ok []) 0 ⟨none, some ⟨"doc.txt", "text/plain", 4, [1]⟩⟩).2
      ∧ Step.normalizeInvoked ∉ (removeBgPart002 (some "k") (fun _ => Except.ok [])
          (fun _ => Except.ok []) 0 ⟨none, some ⟨"doc.txt", "text/plain", 4, [1]⟩⟩).2
      ∧ Step.removalInvoked ∉ (removeBgPart002 (some "k") (fun _ => Except.ok [])
          (fun _ => Except.ok []) 0 ⟨none, some ⟨"doc.txt", "text/plain", 4, [1]⟩⟩).2)) :=
  ⟨by decide, by decide,
   c5_mime_rejected (fun _ => Except.ok []) (fun _ => Except.ok []) 0 (some "k")
     ⟨none, some ⟨"doc.txt", "text/plain", 4, [1]⟩⟩
     ⟨"doc.txt", "text/plain", 4, [1]⟩ (by decide) (by decide)⟩

/-- C7: with a valid bearer token (one that passes the variant's own auth
guard) and no image file field, the route handler (not the middleware) answers
400 with an error saying no image was provided ("No image uploaded" in
server.js, "No image provided" in part_001); the handlerEntered trace event
records that the response originates in the handler. -/
theorem c7_no_image_400
    (norm rb : List Nat → Except String (List Nat)) (now : Nat)
    (apiKey auth : Option String) :
    (serverUnauthorized apiKey (extractToken auth) = false →
      (removeBgServer apiKey norm rb now ⟨auth, none⟩).1.status = 400
      ∧ (removeBgServer apiKey norm rb now ⟨auth, none⟩).1.body
          = Body.json "No image uploaded" none none
      ∧ Step.handlerEntered ∈ (removeBgServer apiKey norm rb now ⟨auth, none⟩).2)
    ∧ (jsNeqOptStr (extractToken auth) apiKey = false →
      (removeBgPart001 apiKey rb ⟨auth, none⟩).1.status = 400
      ∧ (removeBgPart001 apiKey rb ⟨auth, none⟩).1.body
          = Body.json "No image provided" none none
      ∧ Step.handlerEntered ∈ (removeBgPart001 apiKey rb ⟨auth, none⟩).2) := by
  have hpS := multerFiltered_pass_none "Only PNG, JPG, JPEG, WebP allowed"
    (⟨auth, none⟩ : Request) rfl
  have hp1 := multerPart001_pass_none (⟨auth, none⟩ : Request) rfl
  constructor
  · intro huS
    have hES : removeBgServer apiKey norm rb now ⟨auth, none⟩
        = ({ status := 400, body := Body.json "No image uploaded" none none },
           [Step.handlerEntered]) := by
      simp [removeBgServer, hpS, huS]
    rw [hES]
    exact ⟨rfl, rfl, by decide⟩
  · intro hu0
    have hE1 : removeBgPart001 apiKey rb ⟨auth, none⟩
        = ({ status := 400, body := Body.json "No image provided" none none },
           [Step.handlerEntered]) := by
      simp [removeBgPart001, hp1, hu0]
    rw [hE1]
    exact ⟨rfl, rfl, by decide⟩

/-- C7 witness: the theorem applied to a concrete request with a Bearer header
for the configured key "k1" and no file. -/
theorem c7_witness :
    ((removeBgServer (some "k1") (fun _ => Except.ok []) (fun _ => Except.ok []) 0
        ⟨some "Bearer k1", none⟩).1.status = 400
      ∧ (removeBgServer (some "k1") (fun _ => Except.ok []) (fun _ => Except.ok []) 0
        ⟨some "Bearer k1", none⟩).1.body = Body.json "No image uploaded" none none
      ∧ Step.handlerEntered ∈ (removeBgServer (some "k1") (fun _ => Except.ok [])
        (fun _ => Except.ok []) 0 ⟨some "Bearer k1", none⟩).2)
    ∧ ((removeBgPart001 (some "k1") (fun _ => Except.ok []) ⟨some "Bearer k1", none⟩).1.status = 400
      ∧ (removeBgPart001 (some "k1") (fun _ => Except.ok []) ⟨some "Bearer k1", none⟩).1.body
          = Body.json "No image provided" none none
      ∧ Step.handlerEntered ∈ (removeBgPart001 (some "k1") (fun _ => Except.ok [])
          ⟨some "Bearer k1", none⟩).2) :=
  ⟨(c7_no_image_400 (fun _ => Except.ok []) (fun _ => Except.ok []) 0 (some "k1")
      (some "Bearer k1")).1 (by decide),
   (c7_no_image_400 (fun _ => Except.ok []) (fun _ => Except.ok []) 0 (some "k1")
      (some "Bearer k1")).2 (by decide)⟩

/-- C8 (amended): in the variants that read the API key solely from the
environment with no fallback (server.js, part_000, part_001), when API_KEY is
unset every POST /remove-bg request that passes that variant's own upload
middleware is answered 401 regardless of its Authorization header (the
extracted token is always a string and never strictly equals an undefined key;
server.js additionally guards on the key being unset or empty); requests the
middleware rejects are answered by the middleware error instead. -/
theorem c8_unset_key_401
    (norm rb : List Nat → Except String (List Nat)) (now : Nat) (req : Request) :
    ((multerFiltered "Only PNG, JPG, JPEG, WebP allowed" req).1 = none →
      (removeBgServer none norm rb now req).1.status = 401
      ∧ (removeBgPart000 none norm rb now req).1.status = 401)
    ∧ ((multerPart001 req).1 = none →
      (removeBgPart001 none rb req).1.status = 401) := by
  have huS : serverUnauthorized none (extractToken req.authorization) = true := by
    simp [serverUnauthorized, jsFalsy]
  have hu0 : jsNeqOptStr (extractToken req.authorization) none = true := rfl
  constructor
  · intro hmwS
    rcases hpS : multerFiltered "Only PNG, JPG, JPEG, WebP allowed" req with ⟨oS, sS⟩
    rw [hpS] at hmwS
    subst hmwS
    constructor
    · simp [removeBgServer, hpS, huS]
    · simp [removeBgPart000, hpS, hu0]
  · intro hmw1
    rcases hp1 : multerPart001 req with ⟨o1, s1⟩
    rw [hp1] at hmw1
    subst hmw1
    simp [removeBgPart001, hp1, hu0]

/-- C8 counterexample: with API_KEY unset, a request whose file has a disallowed
MIME type is answered 500 by the multer middleware error, not 401, whatever its
Authorization header says. -/
theorem c8_counterexample :
    (removeBgServer none (fun _ => Except.ok []) (fun _ => Except.ok []) 0
        ⟨some "demo-key-123", some ⟨"a.txt", "text/plain", 4, [1]⟩⟩).1.status = 500
    ∧ ¬ (removeBgServer none (fun _ => Except.ok []) (fun _ => Except.ok []) 0
        ⟨some "demo-key-123", some ⟨"a.txt", "text/plain", 4, [1]⟩⟩).1.status = 401 := by
  decide

/-- C8 witness: the amended theorem applied to a concrete request carrying an
arbitrary Authorization header and no file, with API_KEY unset. -/
theorem c8_witness :
    ((removeBgServer none (fun _ => Except.ok []) (fun _ => Except.ok []) 0
        ⟨some "Bearer anything", none⟩).1.status = 401
      ∧ (removeBgPart000 none (fun _ => Except.ok []) (fun _ => Except.ok []) 0
        ⟨some "Bearer anything", none⟩).1.status = 401)
    ∧ (removeBgPart001 none (fun _ => Except.ok [])
        ⟨some "Bearer anything", none⟩).1.status = 401 :=
  ⟨(c8_unset_key_401 (fun _ => Except.ok []) (fun _ => Except.ok []) 0
      ⟨some "Bearer anything", none⟩).1 (by decide),
   (c8_unset_key_401 (fun _ => Except.ok []) (fun _ => Except.ok []) 0
      ⟨some "Bearer anything", none⟩).2 (by decide)⟩

/-- C9 (amended): token extraction removes the first occurrence of the substring
"Bearer " anywhere in the Authorization header (nothing when it is absent) and
then trims surrounding whitespace; consequently, for every request whose
Authorization header equals the configured API key exactly, authentication
succeeds provided the key itself contains no occurrence of "Bearer " and no
leading or trailing JS whitespace — and, for server.js (whose guard also
rejects a falsy key), provided the key is non-empty. -/
theorem c9_bare_key_auth (k : String)
    (hsub : containsSub k "Bearer " = false)
    (htrim : strTrim k = k) :
    extractToken (some k) = k
    ∧ jsNeqOptStr (extractToken (some k)) (some k) = false
    ∧ ((k == "") = false → serverUnauthorized (some k) (extractToken (some k)) = false) := by
  have h1 : removeFirst k "Bearer " = k := by
    cases hx : removeFirstAux "Bearer ".data k.data with
    | none => simp [removeFirst, hx]
    | some r => simp [containsSub, hx] at hsub
  have h2 : extractToken (some k) = k := by
    show strTrim (removeFirst ((some k).getD "") "Bearer ") = k
    rw [Option.getD_some, h1, htrim]
  refine ⟨h2, ?_, ?_⟩
  · rw [h2]; exact jsNeqOptStr_self k
  · intro hkne
    rw [h2]
    simp [serverUnauthorized, jsFalsy, jsNeqOptStr, hkne]

/-- C9 counterexample: with the configured key "my Bearer key", a request whose
Authorization header equals the key exactly — and does not start with the
"Bearer " scheme at all — still fails authentication with 401, because the
extraction removes the internal occurrence of "Bearer " before comparing. -/
theorem c9_counterexample :
    ("Bearer ".data.isPrefixOf "my Bearer key".data) = false
    ∧ extractToken (some "my Bearer key") = "my key"
    ∧ (removeBgServer (some "my Bearer key") (fun _ => Except.ok []) (fun _ => Except.ok []) 0
        ⟨some "my Bearer key", none⟩).1.status = 401 := by
  decide

/-- C9 witness: the amended theorem applied to the key "secret123", which
contains no "Bearer " and no surrounding whitespace. -/
theorem c9_witness :
    containsSub "secret123" "Bearer " = false
    ∧ strTrim "secret123" = "secret123"
    ∧ extractToken (some "secret123") = "secret123"
    ∧ jsNeqOptStr (extractToken (some "secret123")) (some "secret123") = false
    ∧ serverUnauthorized (some "secret123") (extractToken (some "secret123")) = false :=
  ⟨by decide, by decide,
   (c9_bare_key_auth "secret123" (by decide) (by decide)).1,
   (c9_bare_key_auth "secret123" (by decide) (by decide)).2.1,
   (c9_bare_key_auth "secret123" (by decide) (by decide)).2.2 (by decide)⟩

/-- C6: for every model cache directory path, the model-asset URI is the string
`file://` followed by the path with every backslash replaced by a forward slash;
the variants differ only in whether a trailing `/` is appended (server.js has
none, part_000 and part_002 append one). -/
theorem c6_public_path_uri (MODEL_DIR : String) :
    PUBLIC_PATH_URI_server MODEL_DIR = "file://" ++ bsToSlash MODEL_DIR
    ∧ PUBLIC_PATH_URI_part000 MODEL_DIR = PUBLIC_PATH_URI_server MODEL_DIR ++ "/"
    ∧ PUBLIC_PATH_URI_part002 MODEL_DIR = PUBLIC_PATH_URI_part000 MODEL_DIR
    ∧ (bsToSlash MODEL_DIR).data
        = MODEL_DIR.data.map (fun c => if c = '\\' then '/' else c) :=
  ⟨rfl, rfl, rfl, rfl⟩

/-- C10: in the variant whose health endpoint reports cache state (server.js),
GET /health always returns 200 with status "healthy", `file_count` equal to the
number of entries in the model directory (0 when the directory is absent), and
`files_present` true if and only if `file_count` is greater than 0. -/
theorem c10_health (dir : Option (List String)) :
    (healthServer dir).1 = 200
    ∧ (healthServer dir).2.status = "healthy"
    ∧ (healthServer dir).2.file_count = (match dir with | some es => es.length | none => 0)
    ∧ ((healthServer dir).2.files_present = true ↔ 0 < (healthServer dir).2.file_count) := by
  cases dir <;> simp [healthServer]

/-- C3 (amended): in the eager-download variant (part_002), when the model cache
directory is absent at process start, startup triggers the full asset download
for model size `medium` exactly when directory creation succeeds (on an mkdir
failure the process exits before the download is ever called), and any failure
of that startup population — directory creation or download — terminates the
process with exit status 1; however, because `ensureModels()` is not awaited
before `app.listen`, the listen call precedes any download trigger: the server
begins accepting traffic concurrently with (not after) the download. -/
theorem c3_startup_download (mkdirOk downloadOk : Bool) :
    (StartupEvent.downloadTriggered "medium" ∈ part002Startup false mkdirOk downloadOk
      ↔ mkdirOk = true)
    ∧ (part002Startup false mkdirOk downloadOk).indexOf StartupEvent.listenCalled
        < (part002Startup false mkdirOk downloadOk).indexOf (StartupEvent.downloadTriggered "medium")
    ∧ (StartupEvent.processExited 1 ∈ part002Startup false mkdirOk downloadOk
        ↔ (mkdirOk = false ∨ downloadOk = false))
    ∧ (StartupEvent.downloadCompleted ∈ part002Startup false mkdirOk downloadOk
        ↔ (mkdirOk = true ∧ downloadOk = true)) := by
  cases mkdirOk <;> cases downloadOk <;> decide

/-- C3 counterexample: with the cache directory absent at process start (and
directory creation and download both succeeding), the startup trace calls
`app.listen` strictly before the asset download is triggered, so the download
is not triggered before the server begins accepting traffic, contrary to the
claim. -/
theorem c3_counterexample :
    part002Startup false true true
      = [StartupEvent.ensureModelsCalled, StartupEvent.listenCalled, StartupEvent.dirCreated,
         StartupEvent.downloadTriggered "medium", StartupEvent.downloadCompleted]
    ∧ ¬ ((part002Startup false true true).indexOf (StartupEvent.downloadTriggered "medium")
          < (part002Startup false true true).indexOf StartupEvent.listenCalled) := by
  decide

end BgRemover
